import Mathlib

/-!
Shallow embedding of `get_images.py` (TESSutils): the retry-governed,
multi-phase TESS-cut download pipeline (`download_tesscuts_single`) and its
multi-target driver (`download_tesscuts`).

External effects (the MAST catalog search, the bulk cutout download, the FITS
serialisation to disk) are modelled as attempt-indexed oracles supplied in an
environment; the filesystem is a list of (filename, TICID-metadata) records.
All control flow — the three retry loops, error classification, the identity
check, the dedup filter, and the early returns — is translated line by line
from the source.
-/

namespace TESSutils

/-- Python runtime values, as far as the source's `isinstance` checks see them. -/
inductive PyVal where
  | str (s : String)
  | int (n : Int)
  | path (p : String)
  | list (xs : List PyVal)
  | pyNone

def PyVal.isStr : PyVal → Bool
  | .str _ => true
  | _ => false

def PyVal.isInt : PyVal → Bool
  | .int _ => true
  | _ => false

def PyVal.isPath : PyVal → Bool
  | .path _ => true
  | _ => false

/-- One row of the table returned by `lk.search_tesscut`: the `targetid`
column and the free-text `observation` column. -/
structure SearchRow where
  targetid : String
  observation : String
  deriving DecidableEq, Repr

/-- One downloaded target pixel file, carrying its own sector label
(`tpf.sector` in the source). -/
structure Tpf where
  sector : String
  deriving DecidableEq, Repr

/-- Python exceptions that can escape `download_tesscuts_single`. -/
inductive PyExc where
  | typeError
  | valueError
  | attributeError
  deriving DecidableEq, Repr

/-- Does the literal `pat` occur at the head of `text`? -/
def litMatch : List Char → List Char → Bool
  | [], _ => true
  | _ :: _, [] => false
  | a :: as, b :: bs => a == b && litMatch as bs

/-- `re.match(pat ++ digits-group, text).group(1)`: the pattern is anchored at
the start of `text`; it requires the literal `pat` followed by at least one
digit, and group 1 is the maximal run of digits after `pat`.  `none` models
`re.match` returning `None` (so that `.group(1)` raises `AttributeError`). -/
def reMatchDigits (pat text : String) : Option String :=
  let p := pat.toList
  let t := text.toList
  if litMatch p t then
    let ds := (t.drop p.length).takeWhile Char.isDigit
    if ds.isEmpty then none else some (String.mk ds)
  else none

/-- Outcome of `tesscuts.download_all` on one attempt (the fetch oracle's
codomain): success with payloads, a `TypeError`, a `SearchError`, or any
other exception. -/
inductive FetchOut where
  | ok (tpfs : List Tpf)
  | typeErr
  | searchErr
  | transient
  deriving DecidableEq, Repr

/-- Result of the whole fetch retry loop. -/
inductive FetchRes where
  | ok (tpfs : List Tpf)
  | terminalType
  | terminalSearch
  | exhausted
  deriving DecidableEq, Repr

/-- How one target's pipeline run ends.  Constructors tagged `raises` in
`Outcome.exc` model exceptions that propagate out of the function; the others
are `print`-and-`return` exits or normal completion. -/
inductive Outcome where
  | typeErrorTIC
  | typeErrorOutputdir
  | typeErrorImsize
  | valueErrorOutputdir
  | queryRetriesExceeded
  | noImagesFound
  | multipleIds
  | idMismatch
  | attributeErrorRaised
  | allPresent
  | fetchTypeErrorSkip
  | fetchSearchErrorSkip
  | fetchRetriesExceeded
  | writeRetriesExceeded
  | completed
  deriving DecidableEq, Repr

/-- Which outcomes correspond to an exception propagating out of
`download_tesscuts_single` (the rest are plain returns). -/
def Outcome.exc : Outcome → Option PyExc
  | .typeErrorTIC => some .typeError
  | .typeErrorOutputdir => some .typeError
  | .typeErrorImsize => some .typeError
  | .valueErrorOutputdir => some .valueError
  | .attributeErrorRaised => some .attributeError
  | _ => none

/-- The local filesystem: (filename, TICID header value) records. -/
def FileSys := List (String × String)

instance : DecidableEq FileSys := inferInstanceAs (DecidableEq (List (String × String)))

/-- `outputname.exists()` on the modelled filesystem. -/
def fileExistsIn (name : String) (fs : List (String × String)) : Bool :=
  fs.any (fun f => f.1 = name)

/-- The output filename `tess{TIC}_sec{sector}.fits`. -/
def outputName (TIC sector : String) : String :=
  "tess" ++ TIC ++ "_sec" ++ sector ++ ".fits"

/-- Writing a FITS file: replaces the record if the name exists, else appends. -/
def addFile (name tic : String) (fs : List (String × String)) :
    List (String × String) :=
  if fileExistsIn name fs then
    fs.map (fun f => if f.1 = name then (name, tic) else f)
  else fs ++ [(name, tic)]

/-- External world of one pipeline run: the behaviour of each network/disk
operation on its n-th invocation (attempts are numbered from 1), plus the
initial filesystem and whether `outputdir` exists as a non-directory. -/
structure Env where
  searchResult : Nat → Option (List SearchRow)
  fetchResult : List SearchRow → Nat → FetchOut
  writeErr : Nat → Nat → Bool
  fs0 : List (String × String)
  outdirFile : Bool

/-- Configuration surface of `download_tesscuts_single`.  The three caps are
Python ints (may be non-positive). -/
structure Config where
  TIC : PyVal
  outputdir : PyVal
  imsize : PyVal
  overwrite : Bool
  max_tries : Int
  max_counter : Int
  max_tries_MASTquery : Int

/-- The MAST query retry loop (source lines 60-73): attempts are numbered
`start, start+1, ...` while `remaining` attempts are allowed; returns the
number of `lk.search_tesscut` invocations and the first success, if any. -/
def queryLoop (oracle : Nat → Option (List SearchRow)) :
    Nat → Nat → Nat × Option (List SearchRow)
  | _, 0 => (0, none)
  | start, n + 1 =>
    match oracle start with
    | some rows => (1, some rows)
    | none =>
      let q := queryLoop oracle (start + 1) n
      (q.1 + 1, q.2)

/-- The bulk-fetch retry loop (source lines 109-129): a `TypeError` or a
`SearchError` aborts immediately; any other exception is retried while
attempts remain. -/
def fetchLoop (oracle : Nat → FetchOut) : Nat → Nat → Nat × FetchRes
  | _, 0 => (0, .exhausted)
  | start, n + 1 =>
    match oracle start with
    | .ok tpfs => (1, .ok tpfs)
    | .typeErr => (1, .terminalType)
    | .searchErr => (1, .terminalSearch)
    | .transient =>
      let f := fetchLoop oracle (start + 1) n
      (f.1 + 1, f.2)

/-- The per-file write retry loop (source lines 140-153): `ok a` says whether
`tpf.to_fits` succeeds on attempt `a`; returns the attempt count and whether
the file was written. -/
def writeLoop (ok : Nat → Bool) : Nat → Nat → Nat × Bool
  | _, 0 => (0, false)
  | start, n + 1 =>
    if ok start then (1, true)
    else
      let w := writeLoop ok (start + 1) n
      (w.1 + 1, w.2)

/-- Result of the persistence phase: final filesystem, whether every payload
was written (`false` means the loop hit the cap and the function returned),
per-attempted-payload attempt counts, and total seconds slept. -/
structure WriteRes where
  fs : List (String × String)
  completedAll : Bool
  counts : List Nat
  sleeps : Nat
  deriving DecidableEq, Repr

/-- The persistence phase (source lines 132-155).  For each payload, derive
the name from the payload's own sector, stamp the TICID, and retry the write
up to the HARDCODED cap of 5 attempts (`if counter > 5` in the source — not
`max_counter`), sleeping 1 second after each failure.  An attempt raises when
the write oracle says so or when the path exists and `overwrite` is false.
Exhausting the cap RETURNS from the whole function, abandoning this payload
and all remaining payloads. -/
def writePhase (TIC : String) (ow : Bool) (we : Nat → Nat → Bool) :
    List Tpf → Nat → List (String × String) → WriteRes
  | [], _, fs => ⟨fs, true, [], 0⟩
  | tpf :: rest, idx, fs =>
    let name := outputName TIC tpf.sector
    let w := writeLoop (fun a => !we idx a && (ow || !fileExistsIn name fs)) 1 5
    if w.2 then
      let res := writePhase TIC ow we rest (idx + 1) (addFile name TIC fs)
      ⟨res.fs, res.completedAll, w.1 :: res.counts, (w.1 - 1) + res.sleeps⟩
    else
      ⟨fs, false, [w.1], w.1⟩

/-- Observable result of one `download_tesscuts_single` run: how it ended,
the final filesystem, how many catalog-search and bulk-fetch calls were made,
the per-payload write attempt counts, and total seconds slept. -/
structure RunResult where
  outcome : Outcome
  fs : List (String × String)
  searchCalls : Nat
  fetchCalls : Nat
  writeCounts : List Nat
  sleeps : Nat
  deriving DecidableEq, Repr

/-- Source lines 94-155: derive the output names from the resolved sectors,
drop the rows whose file already exists (skip the target when none is left),
run the bulk-fetch retry loop on the remaining rows, and persist the fetched
payloads.  `qc` is the number of catalog-search calls already made and
`rows`/`secs` are the resolved rows and their extracted sector labels. -/
def fetchAndPersist (T : String) (ow : Bool) (mt : Int) (env : Env) (qc : Nat)
    (rows : List SearchRow) (secs : List String) : RunResult :=
  let kept := (rows.zip secs).filter
    (fun rs => !fileExistsIn (outputName T rs.2) env.fs0)
  if kept.isEmpty then ⟨.allPresent, env.fs0, qc, 0, [], 0⟩
  else
    let f := fetchLoop (env.fetchResult (kept.map (fun rs => rs.1))) 1 mt.toNat
    match f.2 with
    | .exhausted => ⟨.fetchRetriesExceeded, env.fs0, qc, f.1, [], 0⟩
    | .terminalType => ⟨.fetchTypeErrorSkip, env.fs0, qc, f.1, [], 0⟩
    | .terminalSearch => ⟨.fetchSearchErrorSkip, env.fs0, qc, f.1, [], 0⟩
    | .ok tpfs =>
      let w := writePhase T ow env.writeErr tpfs 0 env.fs0
      ⟨if w.completedAll then .completed else .writeRetriesExceeded,
        w.fs, qc, f.1, w.counts, w.sleeps⟩

/-- `download_tesscuts_single` (source lines 8-155), translated step by step:
type checks on `TIC`/`outputdir`/`imsize`; `outputdir` must not exist as a
non-directory; the MAST query retry loop; the empty-result check; the
identity check over `np.unique` of the `targetid` column followed by
`re.match` extraction (a failed match raises `AttributeError` uncaught);
sector extraction from each `observation` string (same uncaught raise);
the skip-if-exists dedup filter; the bulk-fetch retry loop with terminal
`TypeError`/`SearchError`; and the persistence phase. -/
def download_tesscuts_single (cfg : Config) (env : Env) : RunResult :=
  match cfg.TIC with
  | .str TIC =>
    match cfg.outputdir with
    | .path _ =>
      match cfg.imsize with
      | .int _ =>
        if env.outdirFile then ⟨.valueErrorOutputdir, env.fs0, 0, 0, [], 0⟩
        else
          let q := queryLoop env.searchResult 1 cfg.max_tries_MASTquery.toNat
          match q.2 with
          | none => ⟨.queryRetriesExceeded, env.fs0, q.1, 0, [], 0⟩
          | some rows =>
            if rows.length = 0 then ⟨.noImagesFound, env.fs0, q.1, 0, [], 0⟩
            else
              let ids := (rows.map (fun r => r.targetid)).dedup
              if ids.length = 1 then
                match reMatchDigits "TIC " (ids.headD "") with
                | none => ⟨.attributeErrorRaised, env.fs0, q.1, 0, [], 0⟩
                | some t =>
                  if TIC ≠ t then ⟨.idMismatch, env.fs0, q.1, 0, [], 0⟩
                  else
                    match rows.mapM
                        (fun r => reMatchDigits "TESS Sector " r.observation) with
                    | none => ⟨.attributeErrorRaised, env.fs0, q.1, 0, [], 0⟩
                    | some sectors =>
                      fetchAndPersist TIC cfg.overwrite cfg.max_tries env q.1
                        rows sectors
              else ⟨.multipleIds, env.fs0, q.1, 0, [], 0⟩
      | _ => ⟨.typeErrorImsize, env.fs0, 0, 0, [], 0⟩
    | _ => ⟨.typeErrorOutputdir, env.fs0, 0, 0, [], 0⟩
  | _ => ⟨.typeErrorTIC, env.fs0, 0, 0, [], 0⟩

/-- The keyword arguments `download_tesscuts` forwards to the single-target
function. -/
structure BaseConfig where
  outputdir : PyVal
  imsize : PyVal
  overwrite : Bool
  max_tries : Int
  max_counter : Int
  max_tries_MASTquery : Int

def BaseConfig.withTIC (b : BaseConfig) (t : PyVal) : Config :=
  ⟨t, b.outputdir, b.imsize, b.overwrite, b.max_tries, b.max_counter,
    b.max_tries_MASTquery⟩

/-- Observable result of one `download_tesscuts` run: the progress markers
`(i+1, total)` printed before each started target, the exception that
propagated out (if any), the per-target run results, and whether the driver
reached its final cache-cleaning reminder. -/
structure DriverRes where
  markers : List (Nat × Nat)
  raised : Option PyExc
  runs : List RunResult
  deriving Repr

def DriverRes.completed (d : DriverRes) : Bool := d.raised.isNone

/-- The loop over a collection of targets (the `Parallel` call at source line
214, with the default fully sequential `nThreads=1` semantics: an exception
in a job propagates and later jobs do not run).  `run_download_tesscuts_single`
prints the `(i+1)/n` marker before running each target. -/
def jobsLoop (b : BaseConfig) (envOf : Nat → Env) (total : Nat) :
    List PyVal → Nat → List (Nat × Nat) × Option PyExc × List RunResult
  | [], _ => ([], none, [])
  | x :: rest, i =>
    let r := download_tesscuts_single (b.withTIC x) (envOf i)
    match r.outcome.exc with
    | some e => ([(i + 1, total)], some e, [r])
    | none =>
      let t := jobsLoop b envOf total rest (i + 1)
      ((i + 1, total) :: t.1, t.2.1, r :: t.2.2)

/-- `download_tesscuts` (source lines 157-216): rejects an `int` collection
argument; a plain string runs the single-target function DIRECTLY (no
progress marker); a list runs `run_download_tesscuts_single` per element with
a marker before each; anything else is not iterable and raises `TypeError`.
`envOf i` is the external world seen by the i-th job. -/
def download_tesscuts (TICs : PyVal) (b : BaseConfig) (envOf : Nat → Env) :
    DriverRes :=
  match TICs with
  | .int _ => ⟨[], some .typeError, []⟩
  | .str s =>
    let r := download_tesscuts_single (b.withTIC (.str s)) (envOf 0)
    ⟨[], r.outcome.exc, [r]⟩
  | .list xs =>
    let t := jobsLoop b envOf xs.length xs 0
    ⟨t.1, t.2.1, t.2.2⟩
  | _ => ⟨[], some .typeError, []⟩

/-! ### Retry-loop lemmas -/

theorem queryLoop_all_none (oracle : Nat → Option (List SearchRow))
    (h : ∀ a, oracle a = none) :
    ∀ n s, queryLoop oracle s n = (n, none) := by
  intro n
  induction n with
  | zero => intro s; rfl
  | succ n ih =>
    intro s
    simp only [queryLoop, h s, ih (s + 1)]

theorem queryLoop_first_success (oracle : Nat → Option (List SearchRow))
    (rows : List SearchRow) :
    ∀ n s k, s ≤ k → k < s + n →
      (∀ a, s ≤ a → a < k → oracle a = none) → oracle k = some rows →
      queryLoop oracle s n = (k + 1 - s, some rows) := by
  intro n
  induction n with
  | zero => intro s k h1 h2 _ _; omega
  | succ n ih =>
    intro s k h1 h2 hfail hk
    rcases Nat.eq_or_lt_of_le h1 with heq | hlt
    · subst heq
      simp only [queryLoop, hk]
      congr 1
      omega
    · have hs : oracle s = none := hfail s le_rfl hlt
      have hrec := ih (s + 1) k hlt (by omega)
        (fun a ha hb => hfail a (by omega) hb) hk
      simp only [queryLoop, hs, hrec]
      congr 1
      omega

/-- Classification of a single fetch attempt, as the fetch loop reports it
when that attempt is the one it stops on. -/
def stepRes : FetchOut → FetchRes
  | .ok tpfs => .ok tpfs
  | .typeErr => .terminalType
  | .searchErr => .terminalSearch
  | .transient => .exhausted

theorem fetchLoop_all_transient (oracle : Nat → FetchOut)
    (h : ∀ a, oracle a = .transient) :
    ∀ n s, fetchLoop oracle s n = (n, .exhausted) := by
  intro n
  induction n with
  | zero => intro s; rfl
  | succ n ih =>
    intro s
    simp only [fetchLoop, h s, ih (s + 1)]

theorem fetchLoop_first_stop (oracle : Nat → FetchOut) :
    ∀ n s k, s ≤ k → k < s + n →
      (∀ a, s ≤ a → a < k → oracle a = .transient) → oracle k ≠ .transient →
      fetchLoop oracle s n = (k + 1 - s, stepRes (oracle k)) := by
  intro n
  induction n with
  | zero => intro s k h1 h2 _ _; omega
  | succ n ih =>
    intro s k h1 h2 htrans hnt
    rcases Nat.eq_or_lt_of_le h1 with heq | hlt
    · subst heq
      rcases h : oracle s with tpfs | _ | _ | _
      case transient => exact absurd h hnt
      all_goals
        simp only [fetchLoop, h, stepRes]
        congr 1
        omega
    · have hs : oracle s = .transient := htrans s le_rfl hlt
      have hrec := ih (s + 1) k hlt (by omega)
        (fun a ha hb => htrans a (by omega) hb) hnt
      simp only [fetchLoop, hs, hrec]
      congr 1
      omega

theorem writeLoop_all_fail (ok : Nat → Bool) :
    ∀ n s, (∀ a, s ≤ a → a < s + n → ok a = false) →
      writeLoop ok s n = (n, false) := by
  intro n
  induction n with
  | zero => intro s _; rfl
  | succ n ih =>
    intro s h
    simp [writeLoop, h s le_rfl (by omega),
      ih (s + 1) (fun a ha hb => h a (by omega) (by omega))]

/-! ### Persistence-phase lemmas -/

theorem addFile_exists_mono (nm name tic : String) (fs : List (String × String))
    (h : fileExistsIn nm fs = true) :
    fileExistsIn nm (addFile name tic fs) = true := by
  unfold addFile
  split
  · simp only [fileExistsIn, List.any_map, List.any_eq_true] at h ⊢
    obtain ⟨f, hf, hfe⟩ := h
    refine ⟨f, hf, ?_⟩
    simp only [Function.comp_apply]
    split
    · simp only [decide_eq_true_eq] at hfe ⊢
      next hfn => rw [← hfe, hfn]
    · exact hfe
  · simp only [fileExistsIn, List.any_eq_true] at h ⊢
    obtain ⟨f, hf, hfe⟩ := h
    exact ⟨f, List.mem_append_left _ hf, hfe⟩

theorem addFile_exists_self (name tic : String) (fs : List (String × String)) :
    fileExistsIn name (addFile name tic fs) = true := by
  unfold addFile
  split
  next hex =>
    simp only [fileExistsIn, List.any_eq_true, decide_eq_true_eq] at hex
    obtain ⟨f, hf, hfe⟩ := hex
    simp only [fileExistsIn, List.any_map, List.any_eq_true]
    refine ⟨f, hf, ?_⟩
    simp [Function.comp_apply, hfe]
  · simp [fileExistsIn]

theorem writePhase_exists_mono (T : String) (ow : Bool) (we : Nat → Nat → Bool)
    (nm : String) :
    ∀ (tpfs : List Tpf) (idx : Nat) (fs : List (String × String)),
      fileExistsIn nm fs = true →
      fileExistsIn nm (writePhase T ow we tpfs idx fs).fs = true := by
  intro tpfs
  induction tpfs with
  | nil => intro idx fs h; exact h
  | cons tpf rest ih =>
    intro idx fs h
    unfold writePhase
    dsimp only
    split
    · exact ih (idx + 1) _ (addFile_exists_mono _ _ _ _ h)
    · exact h

theorem writePhase_writes (T : String) (ow : Bool) (we : Nat → Nat → Bool) :
    ∀ (tpfs : List Tpf) (idx : Nat) (fs : List (String × String)),
      (writePhase T ow we tpfs idx fs).completedAll = true →
      ∀ tpf ∈ tpfs,
        fileExistsIn (outputName T tpf.sector) (writePhase T ow we tpfs idx fs).fs
          = true := by
  intro tpfs
  induction tpfs with
  | nil => intro idx fs _ tpf htpf; exact absurd htpf (List.not_mem_nil tpf)
  | cons head rest ih =>
    intro idx fs hall tpf htpf
    unfold writePhase at hall ⊢
    dsimp only at hall ⊢
    cases hw : (writeLoop
        (fun a => !we idx a && (ow || !fileExistsIn (outputName T head.sector) fs))
        1 5).2 with
    | false => simp [hw] at hall
    | true =>
      simp only [hw, if_true, reduceIte] at hall ⊢
      rcases List.mem_cons.mp htpf with heq | hmem
      · subst heq
        exact writePhase_exists_mono T ow we _ rest (idx + 1) _
          (addFile_exists_self _ _ _)
      · exact ih (idx + 1) _ hall tpf hmem

/-- If every write attempt on the first payload raises, the persistence
phase makes exactly 5 attempts on it and then returns from the whole
function: the filesystem keeps exactly the files written so far and no
later payload is attempted. -/
theorem writePhase_abandons (T : String) (ow : Bool) (we : Nat → Nat → Bool)
    (tpf : Tpf) (rest : List Tpf) (idx : Nat) (fs : List (String × String))
    (hfail : ∀ a, 1 ≤ a → a ≤ 5 → we idx a = true) :
    writePhase T ow we (tpf :: rest) idx fs = ⟨fs, false, [5], 5⟩ := by
  have hloop : writeLoop
      (fun a => !we idx a && (ow || !fileExistsIn (outputName T tpf.sector) fs))
      1 5 = (5, false) := by
    apply writeLoop_all_fail
    intro a ha hb
    simp [hfail a ha (by omega)]
  unfold writePhase
  simp [hloop]

/-! ### Branch-reduction lemmas for the single-target pipeline -/

theorem run_eq_query_none (T p : String) (z : Int) (ow : Bool) (mt mc maxQ : Int)
    (env : Env) (qc : Nat)
    (hdir : env.outdirFile = false)
    (hq : queryLoop env.searchResult 1 maxQ.toNat = (qc, none)) :
    download_tesscuts_single ⟨.str T, .path p, .int z, ow, mt, mc, maxQ⟩ env
      = ⟨.queryRetriesExceeded, env.fs0, qc, 0, [], 0⟩ := by
  unfold download_tesscuts_single
  dsimp only
  rw [hdir, hq]
  rw [if_neg Bool.false_ne_true]

theorem run_eq_multiple_ids (T p : String) (z : Int) (ow : Bool)
    (mt mc maxQ : Int) (env : Env) (qc : Nat) (rows : List SearchRow)
    (hdir : env.outdirFile = false)
    (hq : queryLoop env.searchResult 1 maxQ.toNat = (qc, some rows))
    (hrows : rows ≠ [])
    (hids : ((rows.map (fun r => r.targetid)).dedup).length ≠ 1) :
    download_tesscuts_single ⟨.str T, .path p, .int z, ow, mt, mc, maxQ⟩ env
      = ⟨.multipleIds, env.fs0, qc, 0, [], 0⟩ := by
  unfold download_tesscuts_single
  dsimp only
  rw [hdir, hq]
  rw [if_neg Bool.false_ne_true]
  dsimp only
  split
  next h => exact absurd (List.length_eq_zero.mp h) hrows
  next => rfl

theorem run_eq_mismatch (T p : String) (z : Int) (ow : Bool)
    (mt mc maxQ : Int) (env : Env) (qc : Nat) (rows : List SearchRow)
    (t : String)
    (hdir : env.outdirFile = false)
    (hq : queryLoop env.searchResult 1 maxQ.toNat = (qc, some rows))
    (hrows : rows ≠ [])
    (hlen : ((rows.map (fun r => r.targetid)).dedup).length = 1)
    (hparse : reMatchDigits "TIC "
      (((rows.map (fun r => r.targetid)).dedup).headD "") = some t)
    (hne : T ≠ t) :
    download_tesscuts_single ⟨.str T, .path p, .int z, ow, mt, mc, maxQ⟩ env
      = ⟨.idMismatch, env.fs0, qc, 0, [], 0⟩ := by
  unfold download_tesscuts_single
  dsimp only
  rw [hdir, hq]
  rw [if_neg Bool.false_ne_true]
  dsimp only
  split
  next h => exact absurd (List.length_eq_zero.mp h) hrows
  next =>
    rw [hparse]
    dsimp only
    rw [if_pos hne]

theorem run_eq_sector_fail (T p : String) (z : Int) (ow : Bool)
    (mt mc maxQ : Int) (env : Env) (qc : Nat) (rows : List SearchRow)
    (idv : String)
    (hdir : env.outdirFile = false)
    (hq : queryLoop env.searchResult 1 maxQ.toNat = (qc, some rows))
    (hrows : rows ≠ [])
    (hids : (rows.map (fun r => r.targetid)).dedup = [idv])
    (hparse : reMatchDigits "TIC " idv = some T)
    (hsecs : rows.mapM (fun r => reMatchDigits "TESS Sector " r.observation)
      = none) :
    download_tesscuts_single ⟨.str T, .path p, .int z, ow, mt, mc, maxQ⟩ env
      = ⟨.attributeErrorRaised, env.fs0, qc, 0, [], 0⟩ := by
  unfold download_tesscuts_single
  dsimp only
  rw [hdir, hq]
  rw [if_neg Bool.false_ne_true]
  dsimp only
  rw [hids]
  split
  next h => exact absurd (List.length_eq_zero.mp h) hrows
  next =>
    rw [if_pos (show ([idv] : List String).length = 1 from rfl)]
    rw [show ([idv] : List String).headD "" = idv from rfl]
    rw [hparse]
    dsimp only
    rw [if_neg (show ¬(T ≠ T) from fun hh => hh rfl), hsecs]

theorem run_eq_id_parse_fail (T p : String) (z : Int) (ow : Bool)
    (mt mc maxQ : Int) (env : Env) (qc : Nat) (rows : List SearchRow)
    (idv : String)
    (hdir : env.outdirFile = false)
    (hq : queryLoop env.searchResult 1 maxQ.toNat = (qc, some rows))
    (hrows : rows ≠ [])
    (hids : (rows.map (fun r => r.targetid)).dedup = [idv])
    (hparse : reMatchDigits "TIC " idv = none) :
    download_tesscuts_single ⟨.str T, .path p, .int z, ow, mt, mc, maxQ⟩ env
      = ⟨.attributeErrorRaised, env.fs0, qc, 0, [], 0⟩ := by
  unfold download_tesscuts_single
  dsimp only
  rw [hdir, hq]
  rw [if_neg Bool.false_ne_true]
  dsimp only
  rw [hids]
  split
  next h => exact absurd (List.length_eq_zero.mp h) hrows
  next =>
    rw [if_pos (show ([idv] : List String).length = 1 from rfl)]
    rw [show ([idv] : List String).headD "" = idv from rfl]
    rw [hparse]

theorem run_eq_resolved (T p : String) (z : Int) (ow : Bool)
    (mt mc maxQ : Int) (env : Env) (qc : Nat) (rows : List SearchRow)
    (idv : String) (secs : List String)
    (hdir : env.outdirFile = false)
    (hq : queryLoop env.searchResult 1 maxQ.toNat = (qc, some rows))
    (hrows : rows ≠ [])
    (hids : (rows.map (fun r => r.targetid)).dedup = [idv])
    (hparse : reMatchDigits "TIC " idv = some T)
    (hsecs : rows.mapM (fun r => reMatchDigits "TESS Sector " r.observation)
      = some secs) :
    download_tesscuts_single ⟨.str T, .path p, .int z, ow, mt, mc, maxQ⟩ env
      = fetchAndPersist T ow mt env qc rows secs := by
  unfold download_tesscuts_single
  dsimp only
  rw [hdir, hq]
  rw [if_neg Bool.false_ne_true]
  dsimp only
  rw [hids]
  split
  next h => exact absurd (List.length_eq_zero.mp h) hrows
  next =>
    rw [if_pos (show ([idv] : List String).length = 1 from rfl)]
    rw [show ([idv] : List String).headD "" = idv from rfl]
    rw [hparse]
    dsimp only
    rw [if_neg (show ¬(T ≠ T) from fun hh => hh rfl), hsecs]

/-! ### Claim theorems -/

/-- C4: during the bulk-fetch phase, a malformed-request (`TypeError`) or
archive no-match (`SearchError`) error on the first non-transient attempt `k`
aborts the target immediately with an observed attempt count of exactly `k`
(in particular `k = 1` for a malformed request on attempt 1), while an
oracle that always raises other exceptions is retried exactly `max_tries`
times and then abandoned. -/
theorem C4_fetch_terminal_short_circuit (oracle : Nat → FetchOut)
    (cap : Int) (k : Nat) (hk1 : 1 ≤ k) (hk : (k : Int) ≤ cap)
    (htrans : ∀ a, 1 ≤ a → a < k → oracle a = .transient) :
    (oracle k = .typeErr →
      fetchLoop oracle 1 cap.toNat = (k, .terminalType)) ∧
    (oracle k = .searchErr →
      fetchLoop oracle 1 cap.toNat = (k, .terminalSearch)) ∧
    ((∀ a, oracle a = .transient) →
      fetchLoop oracle 1 cap.toNat = (cap.toNat, .exhausted)) := by
  refine ⟨fun h => ?_, fun h => ?_, fun h => ?_⟩
  · have hs := fetchLoop_first_stop oracle cap.toNat 1 k hk1 (by omega) htrans
      (by simp [h])
    rw [hs, h]
    simp [stepRes]
  · have hs := fetchLoop_first_stop oracle cap.toNat 1 k hk1 (by omega) htrans
      (by simp [h])
    rw [hs, h]
    simp [stepRes]
  · exact fetchLoop_all_transient oracle h cap.toNat 1

/-- C4 witness: a malformed-request error on attempt 1 under a cap of 10
gives exactly one observed attempt and a terminal abort. -/
theorem C4_witness :
    fetchLoop (fun a => if a = 1 then FetchOut.typeErr else FetchOut.transient)
      1 (10 : Int).toNat = (1, FetchRes.terminalType) :=
  (C4_fetch_terminal_short_circuit
    (fun a => if a = 1 then FetchOut.typeErr else FetchOut.transient)
    10 1 le_rfl (by omega) (fun a ha hb => absurd hb (by omega))).1 rfl

/-- C5: a catalog query that fails `k < max_tries_MASTquery` times and then
succeeds resolves within the query loop (the pipeline proceeds past the
query phase with the successful result), while a query that fails on every
attempt makes the target's run end in the query-retries-exceeded skip with
no file written (the filesystem is unchanged). -/
theorem C5_query_retry_boundary
    (oracle : Nat → Option (List SearchRow)) (maxQ : Int) (k : Nat)
    (rows : List SearchRow) (T p : String) (z : Int) (ow : Bool)
    (mt mc : Int) (env : Env)
    (hk : (k : Int) < maxQ)
    (hfail : ∀ a, 1 ≤ a → a ≤ k → oracle a = none)
    (hsucc : oracle (k + 1) = some rows)
    (hallfail : ∀ a, env.searchResult a = none)
    (hdir : env.outdirFile = false) :
    queryLoop oracle 1 maxQ.toNat = (k + 1, some rows) ∧
    download_tesscuts_single ⟨.str T, .path p, .int z, ow, mt, mc, maxQ⟩ env
      = ⟨.queryRetriesExceeded, env.fs0, maxQ.toNat, 0, [], 0⟩ := by
  constructor
  · have hs := queryLoop_first_success oracle rows maxQ.toNat 1 (k + 1)
      (by omega) (by omega) (fun a ha hb => hfail a ha (by omega)) hsucc
    rw [hs]
    congr 1
  · exact run_eq_query_none T p z ow mt mc maxQ env maxQ.toNat hdir
      (queryLoop_all_none env.searchResult hallfail maxQ.toNat 1)

/-- C5 witness: with a query cap of 3, failing once then succeeding resolves
on attempt 2; an always-failing query skips the target with 3 search calls
and an unchanged (empty) filesystem. -/
theorem C5_witness :
    queryLoop
        (fun a => if a = 2 then some [⟨"TIC 3", "TESS Sector 1"⟩] else none)
        1 (3 : Int).toNat = (2, some [⟨"TIC 3", "TESS Sector 1"⟩]) ∧
    download_tesscuts_single ⟨.str "3", .path "out", .int 20, false, 10, 5, 3⟩
        ⟨fun _ => none, fun _ _ => .transient, fun _ _ => false, [], false⟩
      = ⟨.queryRetriesExceeded, [], (3 : Int).toNat, 0, [], 0⟩ :=
  C5_query_retry_boundary
    (fun a => if a = 2 then some [⟨"TIC 3", "TESS Sector 1"⟩] else none)
    3 1 [⟨"TIC 3", "TESS Sector 1"⟩] "3" "out" 20 false 10 5
    ⟨fun _ => none, fun _ _ => .transient, fun _ _ => false, [], false⟩
    (by omega)
    (fun a ha hb => by
      have h1 : a = 1 := by omega
      rw [h1]
      rfl)
    rfl (fun a => rfl) rfl

/-- C6: if the catalog search results carry more than one distinct
`targetid`, or an extracted identity different from the requested `TIC`,
the run changes no file, makes no fetch call and attempts no write; and
conversely, every run that changes the filesystem passed its identity check:
the identity extracted from the search results equals the requested `TIC`. -/
theorem C6_identity_invariant (T p : String) (z : Int) (ow : Bool)
    (mt mc maxQ : Int) (env : Env) (hdir : env.outdirFile = false) :
    (∀ qc rows,
      queryLoop env.searchResult 1 maxQ.toNat = (qc, some rows) →
      rows ≠ [] →
      (((rows.map (fun r => r.targetid)).dedup).length ≠ 1 ∨
        ∃ t, reMatchDigits "TIC "
            (((rows.map (fun r => r.targetid)).dedup).headD "") = some t ∧
          T ≠ t) →
      (download_tesscuts_single ⟨.str T, .path p, .int z, ow, mt, mc, maxQ⟩
          env).fs = env.fs0 ∧
      (download_tesscuts_single ⟨.str T, .path p, .int z, ow, mt, mc, maxQ⟩
          env).fetchCalls = 0 ∧
      (download_tesscuts_single ⟨.str T, .path p, .int z, ow, mt, mc, maxQ⟩
          env).writeCounts = []) ∧
    ((download_tesscuts_single ⟨.str T, .path p, .int z, ow, mt, mc, maxQ⟩
        env).fs ≠ env.fs0 →
      ∃ qc rows,
        queryLoop env.searchResult 1 maxQ.toNat = (qc, some rows) ∧
        reMatchDigits "TIC "
          (((rows.map (fun r => r.targetid)).dedup).headD "") = some T) := by
  constructor
  · intro qc rows hq hrows hbad
    by_cases hlen : ((rows.map (fun r => r.targetid)).dedup).length = 1
    · rcases hbad with hbad | ⟨t, hparse, hne⟩
      · exact absurd hlen hbad
      · rw [run_eq_mismatch T p z ow mt mc maxQ env qc rows t hdir hq hrows
          hlen hparse hne]
        exact ⟨rfl, rfl, rfl⟩
    · rw [run_eq_multiple_ids T p z ow mt mc maxQ env qc rows hdir hq hrows
        hlen]
      exact ⟨rfl, rfl, rfl⟩
  · intro hfs
    unfold download_tesscuts_single at hfs
    dsimp only at hfs
    rw [hdir, if_neg Bool.false_ne_true] at hfs
    rcases hq2 : queryLoop env.searchResult 1 maxQ.toNat with ⟨qc, qres⟩
    rw [hq2] at hfs
    cases qres with
    | none => exact absurd rfl hfs
    | some rows =>
      dsimp only at hfs
      by_cases hlen0 : rows.length = 0
      · rw [if_pos hlen0] at hfs
        exact absurd rfl hfs
      · rw [if_neg hlen0] at hfs
        by_cases hlen : ((rows.map (fun r => r.targetid)).dedup).length = 1
        · rw [if_pos hlen] at hfs
          rcases hm : reMatchDigits "TIC "
              (((rows.map (fun r => r.targetid)).dedup).headD "") with _ | t
          · rw [hm] at hfs
            exact absurd rfl hfs
          · rw [hm] at hfs
            dsimp only at hfs
            by_cases hne : T ≠ t
            · rw [if_pos hne] at hfs
              exact absurd rfl hfs
            · push_neg at hne
              rw [← hne] at hm
              exact ⟨qc, rows, rfl, hm⟩
        · rw [if_neg hlen] at hfs
          exact absurd rfl hfs

/-- C6 witness: a search result whose identity is `TIC 5` while the request
was for TIC `"4"` leaves the filesystem unchanged with no fetch call and no
write attempt. -/
theorem C6_witness :
    (download_tesscuts_single ⟨.str "4", .path "out", .int 20, false, 10, 5, 3⟩
        ⟨fun _ => some [⟨"TIC 5", "TESS Sector 1"⟩], fun _ _ => .transient,
          fun _ _ => false, [], false⟩).fs = [] ∧
    (download_tesscuts_single ⟨.str "4", .path "out", .int 20, false, 10, 5, 3⟩
        ⟨fun _ => some [⟨"TIC 5", "TESS Sector 1"⟩], fun _ _ => .transient,
          fun _ _ => false, [], false⟩).fetchCalls = 0 ∧
    (download_tesscuts_single ⟨.str "4", .path "out", .int 20, false, 10, 5, 3⟩
        ⟨fun _ => some [⟨"TIC 5", "TESS Sector 1"⟩], fun _ _ => .transient,
          fun _ _ => false, [], false⟩).writeCounts = [] :=
  (C6_identity_invariant "4" "out" 20 false 10 5 3
      ⟨fun _ => some [⟨"TIC 5", "TESS Sector 1"⟩], fun _ _ => .transient,
        fun _ _ => false, [], false⟩ rfl).1
    1 [⟨"TIC 5", "TESS Sector 1"⟩] rfl (by decide)
    (Or.inr ⟨"5", by decide, by decide⟩)

/-- C7: with `overwrite = false`, a first run that resolves, fetches payloads
whose sector labels agree with the resolved ones, and persists every payload
(ending `completed` with filesystem `fs1`) is idempotent: a second run over
the resulting filesystem finds every output path already present in the
dedup filter, skips the target before any fetch call, and leaves the on-disk
file set identical (`fs1`). -/
theorem C7_rerun_idempotent (T p : String) (z : Int) (mt mc maxQ : Int)
    (env : Env) (qc : Nat) (rows : List SearchRow) (idv : String)
    (secs : List String) (tpfs : List Tpf) (fc : Nat)
    (fs1 : List (String × String)) (counts : List Nat) (sl : Nat)
    (hdir : env.outdirFile = false)
    (hq : queryLoop env.searchResult 1 maxQ.toNat = (qc, some rows))
    (hrows : rows ≠ [])
    (hids : (rows.map (fun r => r.targetid)).dedup = [idv])
    (hparse : reMatchDigits "TIC " idv = some T)
    (hsecs : rows.mapM (fun r => reMatchDigits "TESS Sector " r.observation)
      = some secs)
    (hkept : (rows.zip secs).filter
      (fun rs => !fileExistsIn (outputName T rs.2) env.fs0) ≠ [])
    (hfetch : fetchLoop
      (env.fetchResult (((rows.zip secs).filter
        (fun rs => !fileExistsIn (outputName T rs.2) env.fs0)).map
          (fun rs => rs.1))) 1 mt.toNat = (fc, .ok tpfs))
    (hsec2 : tpfs.map (fun t => t.sector)
      = ((rows.zip secs).filter
        (fun rs => !fileExistsIn (outputName T rs.2) env.fs0)).map
          (fun rs => rs.2))
    (hw : writePhase T false env.writeErr tpfs 0 env.fs0
      = ⟨fs1, true, counts, sl⟩) :
    download_tesscuts_single ⟨.str T, .path p, .int z, false, mt, mc, maxQ⟩
        env = ⟨.completed, fs1, qc, fc, counts, sl⟩ ∧
    download_tesscuts_single ⟨.str T, .path p, .int z, false, mt, mc, maxQ⟩
        { env with fs0 := fs1 } = ⟨.allPresent, fs1, qc, 0, [], 0⟩ := by
  have hke : ((rows.zip secs).filter
      (fun rs => !fileExistsIn (outputName T rs.2) env.fs0)).isEmpty
        = false := by
    cases hc : (rows.zip secs).filter
        (fun rs => !fileExistsIn (outputName T rs.2) env.fs0) with
    | nil => exact absurd hc hkept
    | cons a l => rfl
  constructor
  · rw [run_eq_resolved T p z false mt mc maxQ env qc rows idv secs hdir hq
      hrows hids hparse hsecs]
    unfold fetchAndPersist
    dsimp only
    rw [hke, if_neg Bool.false_ne_true, hfetch]
    dsimp only
    rw [hw]
    rfl
  · have hall : ∀ pr ∈ rows.zip secs,
        fileExistsIn (outputName T pr.2) fs1 = true := by
      intro pr hpr
      by_cases hex : fileExistsIn (outputName T pr.2) env.fs0 = true
      · have hmono := writePhase_exists_mono T false env.writeErr
          (outputName T pr.2) tpfs 0 env.fs0 hex
        rw [hw] at hmono
        exact hmono
      · have hprk : pr ∈ (rows.zip secs).filter
            (fun rs => !fileExistsIn (outputName T rs.2) env.fs0) :=
          List.mem_filter.mpr ⟨hpr, by simp [Bool.not_eq_true] at hex ⊢; exact hex⟩
        have hsec : pr.2 ∈ tpfs.map (fun t => t.sector) := by
          rw [hsec2]
          exact List.mem_map_of_mem (fun rs => rs.2) hprk
        obtain ⟨tpf, htpf, hts⟩ := List.mem_map.mp hsec
        have hwr := writePhase_writes T false env.writeErr tpfs 0 env.fs0
          (by rw [hw]) tpf htpf
        rw [hw, hts] at hwr
        exact hwr
    have hk2 : (rows.zip secs).filter
        (fun rs => !fileExistsIn (outputName T rs.2) fs1) = [] := by
      rw [List.filter_eq_nil_iff]
      intro pr hpr
      simp [hall pr hpr]
    rw [run_eq_resolved T p z false mt mc maxQ { env with fs0 := fs1 } qc rows
      idv secs hdir hq hrows hids hparse hsecs]
    unfold fetchAndPersist
    dsimp only
    rw [hk2]
    rfl

/-- External world of the C7 witness scenario: one search row with identity
`TIC 130415266` and observation `TESS Sector 14`, a fetch that succeeds on
attempt 1 with one payload of sector 14, and writes that never raise. -/
def envC7 : Env :=
  ⟨fun _ => some [⟨"TIC 130415266", "TESS Sector 14"⟩],
    fun _ _ => .ok [⟨"14"⟩], fun _ _ => false, [], false⟩

def fs1C7 : List (String × String) := [("tess130415266_sec14.fits", "130415266")]

/-- C7 witness: the concrete one-sector scenario completes on the first run
producing `tess130415266_sec14.fits` with TICID metadata `130415266`, and the
second run skips at the dedup filter with zero fetch calls and the identical
file set. -/
theorem C7_witness :
    download_tesscuts_single
        ⟨.str "130415266", .path "out", .int 20, false, 10, 5, 3⟩ envC7
      = ⟨.completed, fs1C7, 1, 1, [1], 0⟩ ∧
    download_tesscuts_single
        ⟨.str "130415266", .path "out", .int 20, false, 10, 5, 3⟩
        { envC7 with fs0 := fs1C7 }
      = ⟨.allPresent, fs1C7, 1, 0, [], 0⟩ :=
  C7_rerun_idempotent "130415266" "out" 20 10 5 3 envC7 1
    [⟨"TIC 130415266", "TESS Sector 14"⟩] "TIC 130415266" ["14"] [⟨"14"⟩] 1
    fs1C7 [1] 0 rfl rfl (by decide) (by decide) (by decide) (by decide)
    (by decide) (by decide) (by decide) (by decide)

/-- C10: a non-positive `max_tries_MASTquery` skips the target with zero
catalog-search invocations, and a non-positive `max_tries` skips the target
right after the dedup filter with zero bulk-fetch invocations — each retry
loop checks its cap before the first attempt. -/
theorem C10_nonpositive_caps (T p : String) (z : Int) (ow : Bool)
    (mt mc maxQ : Int) (env : Env) (hdir : env.outdirFile = false) :
    (maxQ < 1 →
      download_tesscuts_single ⟨.str T, .path p, .int z, ow, mt, mc, maxQ⟩ env
        = ⟨.queryRetriesExceeded, env.fs0, 0, 0, [], 0⟩) ∧
    (mt < 1 → ∀ qc rows idv secs,
      queryLoop env.searchResult 1 maxQ.toNat = (qc, some rows) →
      rows ≠ [] →
      (rows.map (fun r => r.targetid)).dedup = [idv] →
      reMatchDigits "TIC " idv = some T →
      rows.mapM (fun r => reMatchDigits "TESS Sector " r.observation)
        = some secs →
      (rows.zip secs).filter
        (fun rs => !fileExistsIn (outputName T rs.2) env.fs0) ≠ [] →
      download_tesscuts_single ⟨.str T, .path p, .int z, ow, mt, mc, maxQ⟩ env
        = ⟨.fetchRetriesExceeded, env.fs0, qc, 0, [], 0⟩) := by
  constructor
  · intro hmq
    have h0 : maxQ.toNat = 0 := by omega
    exact run_eq_query_none T p z ow mt mc maxQ env 0 hdir
      (by rw [h0]; rfl)
  · intro hmt qc rows idv secs hq hrows hids hparse hsecs hkept
    have hke : ((rows.zip secs).filter
        (fun rs => !fileExistsIn (outputName T rs.2) env.fs0)).isEmpty
          = false := by
      cases hc : (rows.zip secs).filter
          (fun rs => !fileExistsIn (outputName T rs.2) env.fs0) with
      | nil => exact absurd hc hkept
      | cons a l => rfl
    have h0 : mt.toNat = 0 := by omega
    rw [run_eq_resolved T p z ow mt mc maxQ env qc rows idv secs hdir hq
      hrows hids hparse hsecs]
    unfold fetchAndPersist
    dsimp only
    rw [hke, if_neg Bool.false_ne_true, h0]
    rfl

/-- C10 witness: with `max_tries_MASTquery = 0` the run skips with zero
search calls; with `max_tries = 0` a run that resolves one fresh sector
skips with zero fetch calls. -/
theorem C10_witness :
    download_tesscuts_single ⟨.str "3", .path "out", .int 20, false, 10, 5, 0⟩
        ⟨fun _ => none, fun _ _ => .transient, fun _ _ => false, [], false⟩
      = ⟨.queryRetriesExceeded, [], 0, 0, [], 0⟩ ∧
    download_tesscuts_single
        ⟨.str "130415266", .path "out", .int 20, false, 0, 5, 3⟩
        ⟨fun _ => some [⟨"TIC 130415266", "TESS Sector 14"⟩],
          fun _ _ => .transient, fun _ _ => false, [], false⟩
      = ⟨.fetchRetriesExceeded, [], 1, 0, [], 0⟩ :=
  ⟨(C10_nonpositive_caps "3" "out" 20 false 10 5 0
      ⟨fun _ => none, fun _ _ => .transient, fun _ _ => false, [], false⟩
      rfl).1 (by omega),
    (C10_nonpositive_caps "130415266" "out" 20 false 0 5 3
      ⟨fun _ => some [⟨"TIC 130415266", "TESS Sector 14"⟩],
        fun _ _ => .transient, fun _ _ => false, [], false⟩
      rfl).2 (by omega) 1 [⟨"TIC 130415266", "TESS Sector 14"⟩]
      "TIC 130415266" ["14"] rfl (by decide) (by decide) (by decide)
      (by decide) (by decide)⟩

/-- C8: a non-string `TIC`, a non-Path `outputdir`, or a non-int `imsize`
makes `download_tesscuts_single` raise a `TypeError` with zero search calls
and zero fetch calls (before any network call), and the driver raises a
`TypeError` for a bare int collection argument before starting any target. -/
theorem C8_config_type_errors :
    (∀ (v od im : PyVal) (ow : Bool) (mt mc mq : Int) (env : Env),
      v.isStr = false →
      download_tesscuts_single ⟨v, od, im, ow, mt, mc, mq⟩ env
        = ⟨.typeErrorTIC, env.fs0, 0, 0, [], 0⟩) ∧
    (∀ (T : String) (od im : PyVal) (ow : Bool) (mt mc mq : Int) (env : Env),
      od.isPath = false →
      download_tesscuts_single ⟨.str T, od, im, ow, mt, mc, mq⟩ env
        = ⟨.typeErrorOutputdir, env.fs0, 0, 0, [], 0⟩) ∧
    (∀ (T p : String) (im : PyVal) (ow : Bool) (mt mc mq : Int) (env : Env),
      im.isInt = false →
      download_tesscuts_single ⟨.str T, .path p, im, ow, mt, mc, mq⟩ env
        = ⟨.typeErrorImsize, env.fs0, 0, 0, [], 0⟩) ∧
    (∀ (n : Int) (b : BaseConfig) (envOf : Nat → Env),
      download_tesscuts (.int n) b envOf = ⟨[], some .typeError, []⟩) := by
  refine ⟨?_, ?_, ?_, fun n b envOf => rfl⟩
  · intro v od im ow mt mc mq env h
    cases v with
    | str s => simp [PyVal.isStr] at h
    | int n => rfl
    | path pp => rfl
    | list xs => rfl
    | pyNone => rfl
  · intro T od im ow mt mc mq env h
    cases od with
    | path pp => simp [PyVal.isPath] at h
    | str s => rfl
    | int n => rfl
    | list xs => rfl
    | pyNone => rfl
  · intro T p im ow mt mc mq env h
    cases im with
    | int n => simp [PyVal.isInt] at h
    | str s => rfl
    | path pp => rfl
    | list xs => rfl
    | pyNone => rfl

/-- C8 witness: an int passed as `TIC` yields the `TypeError` result with
zero search and fetch calls. -/
theorem C8_witness :
    PyVal.isStr (.int 5) = false ∧
    download_tesscuts_single ⟨.int 5, .path "out", .int 20, false, 10, 5, 3⟩
        ⟨fun _ => none, fun _ _ => .transient, fun _ _ => false, [], false⟩
      = ⟨.typeErrorTIC, [], 0, 0, [], 0⟩ :=
  ⟨rfl, C8_config_type_errors.1 (.int 5) (.path "out") (.int 20) false 10 5 3
    ⟨fun _ => none, fun _ _ => .transient, fun _ _ => false, [], false⟩ rfl⟩

/-- External world of the C1 scenario: three resolvable sectors, a fetch that
succeeds on attempt 1 with three payloads, and a write oracle on which every
write of payload index 1 (unit 2) raises while units 1 and 3 never raise. -/
def envC1 : Env :=
  ⟨fun _ => some [⟨"TIC 1", "TESS Sector 1"⟩, ⟨"TIC 1", "TESS Sector 2"⟩,
      ⟨"TIC 1", "TESS Sector 3"⟩],
    fun _ _ => .ok [⟨"1"⟩, ⟨"2"⟩, ⟨"3"⟩],
    fun i _ => i == 1, [], false⟩

def cfgC1 : Config := ⟨.str "1", .path "out", .int 20, false, 10, 5, 3⟩

/-- C1 counterexample: in the 3-unit run where unit 2's writes always fail
and units 1 and 3's writes would succeed, unit 1's file exists but unit 3's
file does NOT — exhausting the write retries does not continue to the next
payload, it returns from the whole function, so the claim is false. -/
theorem C1_counterexample :
    fileExistsIn "tess1_sec1.fits" (download_tesscuts_single cfgC1 envC1).fs
      = true ∧
    fileExistsIn "tess1_sec3.fits" (download_tesscuts_single cfgC1 envC1).fs
      = false := by
  decide

/-- C1 amended: when a payload's disk write fails on all 5 attempts, the
Persistence Writer abandons that payload AND every later payload of the same
target (the run returns); payloads already written remain on disk.  In the
3-unit scenario the run ends `writeRetriesExceeded` with exactly unit 1's
file on disk, write counts `[1, 5]` (unit 3 is never attempted). -/
theorem C1_amended :
    (∀ (T : String) (ow : Bool) (we : Nat → Nat → Bool) (tpf : Tpf)
        (rest : List Tpf) (idx : Nat) (fs : List (String × String)),
      (∀ a, 1 ≤ a → a ≤ 5 → we idx a = true) →
      writePhase T ow we (tpf :: rest) idx fs = ⟨fs, false, [5], 5⟩) ∧
    download_tesscuts_single cfgC1 envC1
      = ⟨.writeRetriesExceeded, [("tess1_sec1.fits", "1")], 1, 1, [1, 5], 5⟩ :=
  ⟨fun T ow we tpf rest idx fs hf =>
      writePhase_abandons T ow we tpf rest idx fs hf,
    by decide⟩

/-- C1 amended witness: a single payload whose writes always raise is
abandoned after 5 attempts with the filesystem unchanged. -/
theorem C1_witness :
    writePhase "9" false (fun _ _ => true) [⟨"3"⟩] 0 []
      = ⟨[], false, [5], 5⟩ :=
  C1_amended.1 "9" false (fun _ _ => true) ⟨"3"⟩ [] 0 []
    (fun _ _ _ => rfl)

/-- External world of the C2 scenario: the archive search succeeds but the
single row's observation text `QLP` does not match `TESS Sector (digits)`. -/
def envC2 : Env :=
  ⟨fun _ => some [⟨"TIC 2", "QLP"⟩], fun _ _ => .transient,
    fun _ _ => false, [], false⟩

def baseC2 : BaseConfig := ⟨.path "out", .int 20, false, 10, 5, 3⟩

/-- C2 counterexample: with one search row whose observation descriptor does
not match the expected pattern, the batch driver RAISES an AttributeError
and does not complete — contradicting the claim that every in-pipeline error
is caught at the target boundary and the batch always completes. -/
theorem C2_counterexample :
    (download_tesscuts (.list [.str "2"]) baseC2 (fun _ => envC2)).raised
      = some .attributeError ∧
    (download_tesscuts (.list [.str "2"]) baseC2 (fun _ => envC2)).completed
      = false := by
  decide

/-- External world of the C2 identity-failure scenario: the single distinct
identity value `XYZ` does not match the `TIC (digits)` pattern. -/
def envC2b : Env :=
  ⟨fun _ => some [⟨"XYZ", "TESS Sector 1"⟩], fun _ _ => .transient,
    fun _ _ => false, [], false⟩

/-- External world of the C2 multiple-identities scenario: two distinct
identity values, neither checked against the pattern. -/
def envC2c : Env :=
  ⟨fun _ => some [⟨"TIC 8", "TESS Sector 1"⟩, ⟨"TIC 9", "TESS Sector 1"⟩],
    fun _ _ => .transient, fun _ _ => false, [], false⟩

/-- C2 amended: errors raised inside the three retry loops are caught and
logged at the target boundary, but two parse failures raise an uncaught
`AttributeError` that propagates out of the single-target pipeline and the
batch driver, which therefore does not complete: (a) the search results
carry a single distinct identity value that does not match the
`TIC (digits)` pattern (source line 85), and (b) after a successful identity
check, some observation descriptor fails the `TESS Sector (digits)` pattern
(source line 92).  Results with more than one distinct identity value do NOT
raise: that target is skipped with the multiple-ids message and the driver
completes. -/
theorem C2_amended (T p : String) (z : Int) (ow : Bool) (mt mc maxQ : Int)
    (env : Env) (qc : Nat) (rows : List SearchRow)
    (hdir : env.outdirFile = false)
    (hq : queryLoop env.searchResult 1 maxQ.toNat = (qc, some rows))
    (hrows : rows ≠ []) :
    (∀ idv, (rows.map (fun r => r.targetid)).dedup = [idv] →
      reMatchDigits "TIC " idv = none →
      (download_tesscuts_single ⟨.str T, .path p, .int z, ow, mt, mc, maxQ⟩
          env).outcome = .attributeErrorRaised ∧
      (download_tesscuts (.list [.str T]) ⟨.path p, .int z, ow, mt, mc, maxQ⟩
          (fun _ => env)).raised = some .attributeError ∧
      (download_tesscuts (.list [.str T]) ⟨.path p, .int z, ow, mt, mc, maxQ⟩
          (fun _ => env)).completed = false) ∧
    (∀ idv, (rows.map (fun r => r.targetid)).dedup = [idv] →
      reMatchDigits "TIC " idv = some T →
      rows.mapM (fun r => reMatchDigits "TESS Sector " r.observation)
        = none →
      (download_tesscuts_single ⟨.str T, .path p, .int z, ow, mt, mc, maxQ⟩
          env).outcome = .attributeErrorRaised ∧
      (download_tesscuts (.list [.str T]) ⟨.path p, .int z, ow, mt, mc, maxQ⟩
          (fun _ => env)).raised = some .attributeError ∧
      (download_tesscuts (.list [.str T]) ⟨.path p, .int z, ow, mt, mc, maxQ⟩
          (fun _ => env)).completed = false) ∧
    (((rows.map (fun r => r.targetid)).dedup).length ≠ 1 →
      (download_tesscuts_single ⟨.str T, .path p, .int z, ow, mt, mc, maxQ⟩
          env).outcome = .multipleIds ∧
      (download_tesscuts (.list [.str T]) ⟨.path p, .int z, ow, mt, mc, maxQ⟩
          (fun _ => env)).raised = none ∧
      (download_tesscuts (.list [.str T]) ⟨.path p, .int z, ow, mt, mc, maxQ⟩
          (fun _ => env)).completed = true) := by
  refine ⟨fun idv hids hparse => ?_, fun idv hids hparse hsecs => ?_,
    fun hlen => ?_⟩
  · have h1 := run_eq_id_parse_fail T p z ow mt mc maxQ env qc rows idv hdir
      hq hrows hids hparse
    refine ⟨by rw [h1], ?_, ?_⟩ <;>
      · unfold download_tesscuts jobsLoop
        dsimp only [BaseConfig.withTIC]
        rw [h1]
        rfl
  · have h1 := run_eq_sector_fail T p z ow mt mc maxQ env qc rows idv hdir hq
      hrows hids hparse hsecs
    refine ⟨by rw [h1], ?_, ?_⟩ <;>
      · unfold download_tesscuts jobsLoop
        dsimp only [BaseConfig.withTIC]
        rw [h1]
        rfl
  · have h1 := run_eq_multiple_ids T p z ow mt mc maxQ env qc rows hdir hq
      hrows hlen
    refine ⟨by rw [h1], ?_, ?_⟩ <;>
      · unfold download_tesscuts jobsLoop
        dsimp only [BaseConfig.withTIC]
        rw [h1]
        rfl

/-- C2 amended witness: the unparsable identity `XYZ` and the unparsable
observation `QLP` each make the single run raise and the driver propagate
the AttributeError; two distinct identities make the run skip with the
multiple-ids outcome and the driver complete without raising. -/
theorem C2_witness :
    (download_tesscuts_single ⟨.str "2", .path "out", .int 20, false, 10, 5, 3⟩
        envC2b).outcome = .attributeErrorRaised ∧
    (download_tesscuts (.list [.str "2"]) ⟨.path "out", .int 20, false, 10, 5, 3⟩
        (fun _ => envC2b)).raised = some .attributeError ∧
    (download_tesscuts_single ⟨.str "2", .path "out", .int 20, false, 10, 5, 3⟩
        envC2).outcome = .attributeErrorRaised ∧
    (download_tesscuts (.list [.str "2"]) ⟨.path "out", .int 20, false, 10, 5, 3⟩
        (fun _ => envC2)).raised = some .attributeError ∧
    (download_tesscuts (.list [.str "2"]) ⟨.path "out", .int 20, false, 10, 5, 3⟩
        (fun _ => envC2)).completed = false ∧
    (download_tesscuts_single ⟨.str "8", .path "out", .int 20, false, 10, 5, 3⟩
        envC2c).outcome = .multipleIds ∧
    (download_tesscuts (.list [.str "8"]) ⟨.path "out", .int 20, false, 10, 5, 3⟩
        (fun _ => envC2c)).raised = none :=
  have ha := (C2_amended "2" "out" 20 false 10 5 3 envC2b 1
    [⟨"XYZ", "TESS Sector 1"⟩] rfl rfl (by decide)).1 "XYZ"
    (by decide) (by decide)
  have hb := (C2_amended "2" "out" 20 false 10 5 3 envC2 1
    [⟨"TIC 2", "QLP"⟩] rfl rfl (by decide)).2.1 "TIC 2"
    (by decide) (by decide) (by decide)
  have hc := (C2_amended "8" "out" 20 false 10 5 3 envC2c 1
    [⟨"TIC 8", "TESS Sector 1"⟩, ⟨"TIC 9", "TESS Sector 1"⟩] rfl rfl
    (by decide)).2.2 (by decide)
  ⟨ha.1, ha.2.1, hb.1, hb.2.1, hb.2.2, hc.1, hc.2.1⟩

/-- Configuration of the C3 scenario: `max_counter = 3`. -/
def cfgC3 : Config := ⟨.str "130415266", .path "out", .int 20, false, 10, 3, 3⟩

/-- External world of the C3 scenario: one fetched payload whose disk writes
always raise. -/
def envC3 : Env :=
  ⟨fun _ => some [⟨"TIC 130415266", "TESS Sector 14"⟩],
    fun _ _ => .ok [⟨"14"⟩], fun _ _ => true, [], false⟩

/-- C3 (code bug): with `max_counter = 3` and a payload whose writes always
raise, the code makes 5 write attempts (sleeping 5 seconds, 1 per failure) —
the loop guard is the hardcoded literal `5` (source line 141), not the
`max_counter` parameter its docstring and log message advertise; indeed the
whole run result is independent of `max_counter`. -/
theorem C3_write_cap_hardcoded :
    ((download_tesscuts_single cfgC3 envC3).writeCounts = [5] ∧
      (download_tesscuts_single cfgC3 envC3).sleeps = 5 ∧
      cfgC3.max_counter = 3) ∧
    (∀ (cfg : Config) (env : Env) (mc : Int),
      download_tesscuts_single { cfg with max_counter := mc } env
        = download_tesscuts_single cfg env) :=
  ⟨by decide, fun cfg env mc => rfl⟩

/-- External world of the C9 scenario: a benign single-sector target. -/
def envC9 : Env :=
  ⟨fun _ => some [⟨"TIC 7", "TESS Sector 1"⟩], fun _ _ => .ok [⟨"1"⟩],
    fun _ _ => false, [], false⟩

def baseC9 : BaseConfig := ⟨.path "out", .int 20, false, 10, 5, 3⟩

/-- C9 counterexample: a single target string runs the pipeline (one run,
no exception) but emits NO progress marker — the driver calls the
single-target function directly in the plain-string branch, so the claim
that a `(index+1)/total` marker precedes each started target is false for
single-string invocations. -/
theorem C9_counterexample :
    (download_tesscuts (.str "7") baseC9 (fun _ => envC9)).markers = [] ∧
    (download_tesscuts (.str "7") baseC9 (fun _ => envC9)).runs.length = 1 ∧
    (download_tesscuts (.str "7") baseC9 (fun _ => envC9)).raised = none := by
  decide

/-- The markers emitted by the collection loop: one `(i+j+1, total)` marker
per started job, in order. -/
theorem jobsLoop_markers (b : BaseConfig) (envOf : Nat → Env) (total : Nat) :
    ∀ (xs : List PyVal) (i : Nat),
      (∀ j, j < xs.length →
        ((download_tesscuts_single (b.withTIC (xs.getD j .pyNone))
          (envOf (i + j))).outcome).exc = none) →
      (jobsLoop b envOf total xs i).1
        = (List.range xs.length).map (fun j => (i + j + 1, total)) := by
  intro xs
  induction xs with
  | nil => intro i h; rfl
  | cons x rest ih =>
    intro i h
    have h0 := h 0 (by simp)
    simp only [List.getD_cons_zero, Nat.add_zero] at h0
    have hrec := ih (i + 1) (fun j hj => by
      have hj2 := h (j + 1) (by simpa using hj)
      simpa [Nat.add_assoc, Nat.add_comm 1 j] using hj2)
    unfold jobsLoop
    dsimp only
    rw [h0]
    dsimp only
    rw [hrec, List.length_cons, List.range_succ_eq_map, List.map_cons, List.map_map]
    congr 1
    · simp
      intro a ha
      omega

/-- C9 amended: progress markers are emitted only on the collection path:
for a plain string the driver runs the single-target pipeline directly with
no marker, while for a list of targets whose runs raise no exception the
driver emits exactly the markers `(1, n), ..., (n, n)`, each before its
target starts. -/
theorem C9_amended :
    (∀ (s : String) (b : BaseConfig) (envOf : Nat → Env),
      (download_tesscuts (.str s) b envOf).markers = []) ∧
    (∀ (xs : List PyVal) (b : BaseConfig) (envOf : Nat → Env),
      (∀ j, j < xs.length →
        ((download_tesscuts_single (b.withTIC (xs.getD j .pyNone))
          (envOf j)).outcome).exc = none) →
      (download_tesscuts (.list xs) b envOf).markers
        = (List.range xs.length).map (fun j => (j + 1, xs.length))) := by
  constructor
  · intro s b envOf
    rfl
  · intro xs b envOf h
    have hm := jobsLoop_markers b envOf xs.length xs 0 (by simpa using h)
    unfold download_tesscuts
    dsimp only
    rw [hm]
    simp

/-- C9 amended witness: a two-target collection in which both runs finish
without raising emits exactly the markers `(1,2)` and `(2,2)`. -/
theorem C9_witness :
    (download_tesscuts (.list [.str "7", .str "8"]) baseC9
      (fun _ => envC9)).markers = [(1, 2), (2, 2)] := by
  rw [C9_amended.2 [.str "7", .str "8"] baseC9 (fun _ => envC9) (by decide)]
  decide

end TESSutils
